import Mathlib

/-!
Verification of the z.ai conversation bridge (`custom_components/zai_conversation`).

The development shallowly embeds the three core components of the integration:
the message encoder `_convert_content`, the stream decoder `_transform_stream`
and the tool-call loop of `_async_handle_chat_log`, together with the option
resolution of the chat handler and the constants of `const.py`.  Python's
`json.loads` is modelled by an executable recursive-descent parser over the
JSON fragment strings that the decoder accumulates.
-/

namespace Zai

/-- Structured JSON values, modelling the values produced by `json.loads`. -/
inductive Json where
  | null : Json
  | bool (b : Bool) : Json
  | num (n : Int) : Json
  | str (s : String) : Json
  | arr (elems : List Json) : Json
  | obj (fields : List (String × Json)) : Json
  deriving Repr

/-- JSON whitespace characters. -/
def isWsChar (c : Char) : Bool :=
  c = ' ' || c = '\t' || c = '\n' || c = '\r'

/-- Drop leading whitespace. -/
def skipWs : List Char → List Char
  | [] => []
  | c :: cs => if isWsChar c then skipWs cs else c :: cs

/-- Parse the body of a JSON string after the opening quote, handling the
common escapes. -/
def parseStringBody : Nat → List Char → Option (String × List Char)
  | 0, _ => none
  | _ + 1, [] => none
  | fuel + 1, c :: cs =>
    if c = '"' then some ("", cs)
    else if c = '\\' then
      match cs with
      | [] => none
      | e :: cs' =>
        let esc : Option Char :=
          if e = '"' then some '"'
          else if e = '\\' then some '\\'
          else if e = '/' then some '/'
          else if e = 'n' then some '\n'
          else if e = 't' then some '\t'
          else if e = 'r' then some '\r'
          else none
        match esc with
        | none => none
        | some ch =>
          match parseStringBody fuel cs' with
          | none => none
          | some (s, rest) => some (String.mk (ch :: s.data), rest)
    else
      match parseStringBody fuel cs with
      | none => none
      | some (s, rest) => some (String.mk (c :: s.data), rest)

/-- Parse a nonempty run of decimal digits. -/
def parseDigits (cs : List Char) : Option (Nat × List Char) :=
  let ds := cs.takeWhile (fun c => c.isDigit)
  let rest := cs.dropWhile (fun c => c.isDigit)
  if ds.isEmpty then none
  else some (ds.foldl (fun n c => n * 10 + (c.toNat - 48)) 0, rest)

/-- Requests to the JSON parsing step: a value, the members of an object after
the opening brace, or the elements of an array after the opening bracket. -/
inductive PReq where
  | val : PReq
  | members : PReq
  | elems : PReq
  deriving Repr, DecidableEq

/-- Results of the JSON parsing step. -/
inductive PRes where
  | val (j : Json) (rest : List Char) : PRes
  | members (ms : List (String × Json)) (rest : List Char) : PRes
  | elems (es : List Json) (rest : List Char) : PRes
  deriving Repr

/-- Fuel-indexed recursive-descent JSON parser.  Integer numerals, strings,
booleans, `null`, arrays and objects are supported; the fuel only bounds
recursion depth and is chosen large enough for any input of a given length. -/
def parseStep : Nat → PReq → List Char → Option PRes
  | 0, _, _ => none
  | fuel + 1, PReq.val, cs =>
    match skipWs cs with
    | [] => none
    | c :: rest =>
      if c = '"' then
        match parseStringBody (fuel + 1) rest with
        | none => none
        | some (s, r) => some (PRes.val (Json.str s) r)
      else if c = '\x7b' then
        match skipWs rest with
        | '\x7d' :: r => some (PRes.val (Json.obj []) r)
        | r =>
          match parseStep fuel PReq.members r with
          | some (PRes.members ms r') => some (PRes.val (Json.obj ms) r')
          | _ => none
      else if c = '[' then
        match skipWs rest with
        | ']' :: r => some (PRes.val (Json.arr []) r)
        | r =>
          match parseStep fuel PReq.elems r with
          | some (PRes.elems es r') => some (PRes.val (Json.arr es) r')
          | _ => none
      else if c = 't' then
        match rest with
        | 'r' :: 'u' :: 'e' :: r => some (PRes.val (Json.bool true) r)
        | _ => none
      else if c = 'f' then
        match rest with
        | 'a' :: 'l' :: 's' :: 'e' :: r => some (PRes.val (Json.bool false) r)
        | _ => none
      else if c = 'n' then
        match rest with
        | 'u' :: 'l' :: 'l' :: r => some (PRes.val Json.null r)
        | _ => none
      else if c = '-' then
        match parseDigits rest with
        | none => none
        | some (n, r) => some (PRes.val (Json.num (-(n : Int))) r)
      else if c.isDigit then
        match parseDigits (c :: rest) with
        | none => none
        | some (n, r) => some (PRes.val (Json.num (n : Int)) r)
      else none
  | fuel + 1, PReq.members, cs =>
    match skipWs cs with
    | '"' :: rest =>
      match parseStringBody (fuel + 1) rest with
      | none => none
      | some (key, r) =>
        match skipWs r with
        | ':' :: r' =>
          match parseStep fuel PReq.val r' with
          | some (PRes.val v r'') =>
            match skipWs r'' with
            | ',' :: r3 =>
              match parseStep fuel PReq.members r3 with
              | some (PRes.members ms r4) => some (PRes.members ((key, v) :: ms) r4)
              | _ => none
            | '\x7d' :: r3 => some (PRes.members [(key, v)] r3)
            | _ => none
          | _ => none
        | _ => none
    | _ => none
  | fuel + 1, PReq.elems, cs =>
    match parseStep fuel PReq.val cs with
    | some (PRes.val v r) =>
      match skipWs r with
      | ',' :: r' =>
        match parseStep fuel PReq.elems r' with
        | some (PRes.elems es r'') => some (PRes.elems (v :: es) r'')
        | _ => none
      | ']' :: r' => some (PRes.elems [v] r')
      | _ => none
    | _ => none

/-- Model of Python's `json.loads`: parse the whole string as one JSON value,
allowing trailing whitespace only; `none` models a raised `JSONDecodeError`. -/
def json_loads (s : String) : Option Json :=
  match parseStep (2 * s.data.length + 4) PReq.val s.data with
  | some (PRes.val j rest) => if (skipWs rest).isEmpty then some j else none
  | _ => none

/-! ## Data model: dialogue content (`homeassistant.components.conversation`) -/

/-- An attachment of a user message (`content.attachments` entries). -/
structure Attachment where
  content_type : String
  data : String
  deriving Repr, DecidableEq

/-- A finalized tool call (`conversation.ToolCall`): provider-assigned id,
tool name, parsed JSON args. -/
structure ToolCall where
  id : String
  name : String
  args : Json
  deriving Repr

/-- One tool result (`conversation.ToolResultContent.tool_results` entry).
`result` is `none` when the Python value is falsy (`None`). -/
structure ToolResult where
  call_id : String
  result : Option String
  error : Bool
  deriving Repr, DecidableEq

/-- The chat-log content items consumed by `_convert_content`. -/
inductive ChatContent where
  | user (content : String) (attachments : List Attachment) : ChatContent
  | assistant (content : String) (tool_calls : List ToolCall) : ChatContent
  | toolResult (tool_results : List ToolResult) : ChatContent
  deriving Repr

/-! ## Wire format (`anthropic.types.MessageParam`) -/

/-- A content part of a wire message, as built by `_convert_content`. -/
inductive ContentPart where
  | text (t : String) : ContentPart
  | image (media_type : String) (data : String) : ContentPart
  | document (data : String) : ContentPart
  | tool_use (id : String) (name : String) (input : Json) : ContentPart
  | tool_result (tool_use_id : String) (content : String) (is_error : Bool) : ContentPart
  deriving Repr

/-- One wire message: a role (`"user"` or `"assistant"`) and a content list. -/
structure MessageParam where
  role : String
  content : List ContentPart
  deriving Repr

/-- The attachment branch of `_convert_content`'s user-message loop: mime
types starting with `"image/"` become image parts, `"application/pdf"` becomes
a document part, anything else is skipped (`none`). -/
def attachment_part (a : Attachment) : Option ContentPart :=
  if List.isPrefixOf "image/".data a.content_type.data then
    some (ContentPart.image a.content_type a.data)
  else if a.content_type = "application/pdf" then
    some (ContentPart.document a.data)
  else none

/-- The wire messages contributed by one chat-log content item, mirroring the
three `isinstance` branches of `_convert_content`. -/
def convert_one (c : ChatContent) : List MessageParam :=
  match c with
  | ChatContent.user content attachments =>
    [{ role := "user",
       content :=
         (if content = "" then [] else [ContentPart.text content]) ++
           attachments.filterMap attachment_part }]
  | ChatContent.assistant content tool_calls =>
    [{ role := "assistant",
       content :=
         (if content = "" then [] else [ContentPart.text content]) ++
           tool_calls.map (fun tc => ContentPart.tool_use tc.id tc.name tc.args) }]
  | ChatContent.toolResult tool_results =>
    tool_results.map (fun tr =>
      { role := "user",
        content := [ContentPart.tool_result tr.call_id (tr.result.getD "") tr.error] })

/-- `_convert_content`: transform chat-log content into wire messages, in
order.  Note that the tool-result branch of the source appends one message per
`ToolResult`, inside a `for` loop over `content.tool_results`. -/
def convert_content : List ChatContent → List MessageParam
  | [] => []
  | c :: rest => convert_one c ++ convert_content rest

/-! ## Stream decoder (`_transform_stream`) -/

/-- Streaming events consumed by `_transform_stream` (the `Raw*Event` shapes
of the Anthropic SDK). -/
inductive StreamEvent where
  | messageStart (input_tokens : Nat) : StreamEvent
  | blockStartText : StreamEvent
  | blockStartTool (id : String) (name : String) : StreamEvent
  | blockDeltaText (text : String) : StreamEvent
  | blockDeltaJson (partial_json : String) : StreamEvent
  | messageDelta (output_tokens : Nat) : StreamEvent
  deriving Repr, DecidableEq

/-- Content items added to the chat log via `async_add_assistant_content`:
either a text-only `AssistantContent` or a tool-calls-only one. -/
inductive AssistantContentMsg where
  | textContent (content : String) : AssistantContentMsg
  | toolCallsContent (tool_calls : List ToolCall) : AssistantContentMsg
  deriving Repr

/-- Chunks yielded by the `_transform_stream` generator
(`AssistantStreamChunk` / `AssistantToolCallChunk`). -/
inductive Chunk where
  | text (t : String) : Chunk
  | toolCall (id : String) (name : String) (args : Json) : Chunk
  deriving Repr

/-- The mutable locals of `_transform_stream`, together with the externally
visible effects of a run: chat-log appends, yielded chunks and logged decode
errors. -/
structure DecodeState where
  content_type : Option Bool
  content_text : String
  tool_call_id : Option String
  tool_call_name : Option String
  tool_call_args : String
  input_tokens : Nat
  output_tokens : Nat
  appended : List AssistantContentMsg
  chunks : List Chunk
  decode_errors : List String
  deriving Repr

/-- `content_type` encoding: the source's `"tool_use"` literal. -/
def toolUseType : Option Bool := some true

/-- `content_type` encoding: the source's `"text"` literal. -/
def textType : Option Bool := some false

/-- Initial decoder state: the local-variable initializations at the top of
`_transform_stream`. -/
def initDecodeState : DecodeState :=
  { content_type := none
    content_text := ""
    tool_call_id := none
    tool_call_name := none
    tool_call_args := ""
    input_tokens := 0
    output_tokens := 0
    appended := []
    chunks := []
    decode_errors := [] }

/-- Python truthiness of an optional string (`None` and `""` are falsy). -/
def optStrTruthy : Option String → Bool
  | none => false
  | some s => s ≠ ""

/-- One iteration of `_transform_stream`'s `async for` loop: process one
stream event. -/
def transform_stream_step (s : DecodeState) (e : StreamEvent) : DecodeState :=
  match e with
  | StreamEvent.messageStart t => { s with input_tokens := t }
  | StreamEvent.blockStartText => { s with content_type := textType }
  | StreamEvent.blockStartTool id name =>
    { s with content_type := toolUseType
             tool_call_id := some id
             tool_call_name := some name }
  | StreamEvent.blockDeltaText txt =>
    if s.content_type = textType then
      { s with content_text := s.content_text ++ txt
               chunks := s.chunks ++ [Chunk.text txt] }
    else s
  | StreamEvent.blockDeltaJson pj =>
    if s.content_type = toolUseType then
      { s with tool_call_args := s.tool_call_args ++ pj }
    else s
  | StreamEvent.messageDelta t =>
    let s := { s with output_tokens := t }
    if s.content_type = toolUseType &&
        optStrTruthy s.tool_call_id && optStrTruthy s.tool_call_name then
      let id := s.tool_call_id.getD ""
      let name := s.tool_call_name.getD ""
      let s' :=
        match json_loads s.tool_call_args with
        | some parsed =>
          { s with
              appended := s.appended ++
                [AssistantContentMsg.toolCallsContent [⟨id, name, parsed⟩]]
              chunks := s.chunks ++ [Chunk.toolCall id name parsed] }
        | none =>
          { s with decode_errors := s.decode_errors ++ [s.tool_call_args] }
      { s' with tool_call_id := none, tool_call_name := none, tool_call_args := "" }
    else s

/-- The epilogue of `_transform_stream`: after the stream is exhausted, append
the accumulated text as an `AssistantContent` only when it is non-empty. -/
def transform_stream_finish (s : DecodeState) : DecodeState :=
  if s.content_text = "" then s
  else { s with appended := s.appended ++ [AssistantContentMsg.textContent s.content_text] }

/-- A whole `_transform_stream` run over an event sequence. -/
def transform_stream (events : List StreamEvent) : DecodeState :=
  transform_stream_finish (events.foldl transform_stream_step initDecodeState)

/-- Total number of finalized tool calls recorded in the chat log by a decode
state. -/
def toolCallsOf (s : DecodeState) : Nat :=
  (s.appended.map (fun c =>
    match c with
    | AssistantContentMsg.toolCallsContent l => l.length
    | AssistantContentMsg.textContent _ => 0)).sum

/-- Whether a stream event is a `RawMessageDeltaEvent`. -/
def isMessageDelta : StreamEvent → Bool
  | StreamEvent.messageDelta _ => true
  | _ => false

/-! ## Tool-call loop (`_async_handle_chat_log`) -/

/-- Errors of the `anthropic` SDK caught by the loop's single
`except anthropic.AnthropicError` clause; the payload models `str(err)`. -/
inductive AnthropicError where
  | authentication (msg : String) : AnthropicError
  | timeoutOrConnection (msg : String) : AnthropicError
  | apiStatus (msg : String) : AnthropicError
  deriving Repr, DecidableEq

/-- `str(err)` for a caught SDK error. -/
def errMessage : AnthropicError → String
  | AnthropicError.authentication m => m
  | AnthropicError.timeoutOrConnection m => m
  | AnthropicError.apiStatus m => m

/-- The exception the handler raises towards Home Assistant. -/
inductive RunError where
  | homeAssistantError (message : String) : RunError
  deriving Repr, DecidableEq

/-- The `raise HomeAssistantError(f"Sorry, I had a problem talking to
z.ai: \x7berr\x7d")` of the `except` clause. -/
def handleStreamError (e : AnthropicError) : RunError :=
  RunError.homeAssistantError ("Sorry, I had a problem talking to z.ai: " ++ errMessage e)

/-- Outcome of one loop iteration's provider round-trip: either the stream
raised an `AnthropicError`, or it completed and
`chat_log.unresponded_tool_results` is the given truth value afterwards. -/
inductive IterOutcome where
  | err (e : AnthropicError) : IterOutcome
  | ok (unresponded_tool_results : Bool) : IterOutcome
  deriving Repr, DecidableEq

/-- Result of a `_async_handle_chat_log` run: either the wrapped error
propagated out, or the loop finished with the final value of the Python
`iteration` variable and whether the max-iterations warning was logged. -/
inductive RunResult where
  | raised (e : RunError) : RunResult
  | finished (iteration : Nat) (capWarning : Bool) : RunResult
  deriving Repr, DecidableEq

/-- `max_iterations = 10` in `_async_handle_chat_log`. -/
def max_iterations : Nat := 10

/-- The body of `for iteration in range(max_iterations)`, starting at index
`i` with `fuel` indices remaining.  When the range is exhausted the Python
loop variable retains the last index, `i - 1`.  After the loop the source
logs the cap warning exactly when `iteration == max_iterations - 1`. -/
def handle_chat_log_aux (provider : Nat → IterOutcome) : Nat → Nat → RunResult
  | i, 0 => RunResult.finished (i - 1) (decide (i - 1 = max_iterations - 1))
  | i, fuel + 1 =>
    match provider i with
    | IterOutcome.err e => RunResult.raised (handleStreamError e)
    | IterOutcome.ok unresponded =>
      if unresponded then handle_chat_log_aux provider (i + 1) fuel
      else RunResult.finished i (decide (i = max_iterations - 1))

/-- The whole tool-call iteration loop of `_async_handle_chat_log`, with the
provider round-trips abstracted as a function of the iteration index. -/
def handle_chat_log (provider : Nat → IterOutcome) : RunResult :=
  handle_chat_log_aux provider 0 max_iterations

/-! ## Option resolution (`_async_handle_chat_log` prologue, `const.py`) -/

/-- `DEFAULT[CONF_CHAT_MODEL]` from `const.py`. -/
def DEFAULT_CHAT_MODEL : String := "glm-4-flash"

/-- `DEFAULT[CONF_MAX_TOKENS]` from `const.py`. -/
def DEFAULT_MAX_TOKENS : Nat := 3000

/-- `DEFAULT[CONF_TEMPERATURE]` from `const.py` (`1.0`). -/
def DEFAULT_TEMPERATURE : ℚ := 1

/-- The config-entry options read by the handler; `recommended` is
`options.get(CONF_RECOMMENDED)` (absent ↦ `none`). -/
structure Options where
  recommended : Option Bool
  chat_model : String
  max_tokens : Nat
  temperature : ℚ
  deriving Repr, DecidableEq

/-- Python truthiness of `options.get(CONF_RECOMMENDED)`. -/
def recommendedTruthy (o : Options) : Bool :=
  o.recommended = some true

/-- The `model` selection of `_async_handle_chat_log`. -/
def effective_model (o : Options) : String :=
  if ¬recommendedTruthy o then o.chat_model else DEFAULT_CHAT_MODEL

/-- The `max_tokens` selection of `_async_handle_chat_log`. -/
def effective_max_tokens (o : Options) : Nat :=
  if ¬recommendedTruthy o then o.max_tokens else DEFAULT_MAX_TOKENS

/-- The `temperature` selection of `_async_handle_chat_log`. -/
def effective_temperature (o : Options) : ℚ :=
  if ¬recommendedTruthy o then o.temperature else DEFAULT_TEMPERATURE

/-! ## Helper lemmas -/

/-- One decoder step adds at most one finalized tool call, and only on a
`MessageDelta` event. -/
theorem toolCallsOf_step_le (s : DecodeState) (e : StreamEvent) :
    toolCallsOf (transform_stream_step s e) ≤
      toolCallsOf s + (if isMessageDelta e then 1 else 0) := by
  cases e with
  | messageStart t => simp [transform_stream_step, toolCallsOf, isMessageDelta]
  | blockStartText => simp [transform_stream_step, toolCallsOf, isMessageDelta]
  | blockStartTool id name => simp [transform_stream_step, toolCallsOf, isMessageDelta]
  | blockDeltaText txt =>
    simp only [transform_stream_step, isMessageDelta]
    split <;> simp [toolCallsOf]
  | blockDeltaJson pj =>
    simp only [transform_stream_step, isMessageDelta]
    split <;> simp [toolCallsOf]
  | messageDelta t =>
    simp only [transform_stream_step, isMessageDelta]
    split
    · split <;> simp [toolCallsOf, List.map_append, List.sum_append]
    · simp [toolCallsOf]

/-- Folding the decoder over events adds at most one finalized tool call per
`MessageDelta` event. -/
theorem toolCallsOf_foldl (events : List StreamEvent) :
    ∀ s : DecodeState,
      toolCallsOf (events.foldl transform_stream_step s) ≤
        toolCallsOf s + (events.filter (fun e => isMessageDelta e)).length := by
  induction events with
  | nil => intro s; simp
  | cons e rest ih =>
    intro s
    have h1 := ih (transform_stream_step s e)
    have h2 := toolCallsOf_step_le s e
    cases hmd : isMessageDelta e with
    | true =>
      rw [hmd, if_pos rfl] at h2
      simp only [List.foldl_cons, List.filter_cons, hmd, if_pos, List.length_cons]
      omega
    | false =>
      rw [hmd] at h2
      simp only [if_neg Bool.false_ne_true] at h2
      simp only [List.foldl_cons, List.filter_cons, hmd, Bool.false_eq_true, if_false]
      omega

/-- The decoder epilogue appends no tool calls. -/
theorem toolCallsOf_finish (s : DecodeState) :
    toolCallsOf (transform_stream_finish s) = toolCallsOf s := by
  simp only [transform_stream_finish]
  split
  · rfl
  · simp [toolCallsOf, List.map_append, List.sum_append]

/-! ## Claim theorems: stream decoder -/

/-- C1: evaluation of the decoder at the failing input.  When a second
`tool_use` block opens while a tool block is already open, `_transform_stream`
neither finalizes the first block nor clears `tool_call_args`, so the single
tool call finalized at `MessageDelta` carries the second block's id and name
but an args object assembled from both blocks' fragments: the field `"a"` sent
entirely inside block `"t1"` ends up in the call finalized for `"t2"`. -/
theorem consecutive_tool_blocks_args_bleed :
    (transform_stream [StreamEvent.blockStartTool "t1" "alpha",
        StreamEvent.blockDeltaJson "\x7b\"a\":",
        StreamEvent.blockStartTool "t2" "beta",
        StreamEvent.blockDeltaJson "\"b\"\x7d",
        StreamEvent.messageDelta 1]).appended =
      [AssistantContentMsg.toolCallsContent
        [⟨"t2", "beta", Json.obj [("a", Json.str "b")]⟩]] ∧
    (transform_stream [StreamEvent.blockStartTool "t1" "alpha",
        StreamEvent.blockDeltaJson "\x7b\"a\":",
        StreamEvent.blockStartTool "t2" "beta",
        StreamEvent.blockDeltaJson "\"b\"\x7d",
        StreamEvent.messageDelta 1]).chunks =
      [Chunk.toolCall "t2" "beta" (Json.obj [("a", Json.str "b")])] :=
  ⟨rfl, rfl⟩

/-- C3 counterexample: the run `[MessageStart, MessageDelta]` reaches the end
of the stream with empty accumulated text and zero finalized tool calls, yet
`_transform_stream` appends nothing to the chat log — no empty
`AssistantTurn` is recorded, contrary to the claim. -/
theorem empty_run_appends_nothing :
    (transform_stream [StreamEvent.messageStart 5, StreamEvent.messageDelta 3]).content_text
        = "" ∧
    toolCallsOf (transform_stream [StreamEvent.messageStart 5, StreamEvent.messageDelta 3])
        = 0 ∧
    (transform_stream [StreamEvent.messageStart 5, StreamEvent.messageDelta 3]).appended
        = [] :=
  ⟨rfl, rfl, rfl⟩

/-- C3 (amended): when the accumulated text is empty at the end of the
stream, the decoder epilogue appends nothing: the chat-log appends of the run
are exactly those made during event processing, and no empty assistant turn
is recorded. -/
theorem empty_text_appends_no_assistant_turn (events : List StreamEvent)
    (h : (events.foldl transform_stream_step initDecodeState).content_text = "") :
    (transform_stream events).appended =
      (events.foldl transform_stream_step initDecodeState).appended := by
  simp [transform_stream, transform_stream_finish, h]

/-- Witness for the amended C3 theorem at the concrete run
`[MessageStart 5, MessageDelta 3]`. -/
theorem empty_text_appends_no_assistant_turn_witness :
    (transform_stream [StreamEvent.messageStart 5, StreamEvent.messageDelta 3]).appended =
      ([StreamEvent.messageStart 5, StreamEvent.messageDelta 3].foldl
        transform_stream_step initDecodeState).appended :=
  empty_text_appends_no_assistant_turn
    [StreamEvent.messageStart 5, StreamEvent.messageDelta 3] rfl

/-- C6: for every decode run in which an open tool block's accumulated args
buffer fails to parse as JSON at its `MessageDelta` finalization — any
reachable decoder state with a tool block open, truthy call id and name, and
a buffer rejected by `json_loads` — the finalization step appends nothing to
the chat log, emits no tool-call chunk, finalizes zero tool calls, records
the malformed buffer as a decode error, and resets the per-call accumulators
so the run continues. -/
theorem malformed_tool_json_discarded (s : DecodeState) (t : Nat)
    (htype : s.content_type = toolUseType)
    (hid : optStrTruthy s.tool_call_id = true)
    (hname : optStrTruthy s.tool_call_name = true)
    (hparse : json_loads s.tool_call_args = none) :
    (transform_stream_step s (StreamEvent.messageDelta t)).appended = s.appended ∧
    (transform_stream_step s (StreamEvent.messageDelta t)).chunks = s.chunks ∧
    (transform_stream_step s (StreamEvent.messageDelta t)).decode_errors =
        s.decode_errors ++ [s.tool_call_args] ∧
    toolCallsOf (transform_stream_step s (StreamEvent.messageDelta t)) = toolCallsOf s ∧
    (transform_stream_step s (StreamEvent.messageDelta t)).tool_call_id = none ∧
    (transform_stream_step s (StreamEvent.messageDelta t)).tool_call_name = none ∧
    (transform_stream_step s (StreamEvent.messageDelta t)).tool_call_args = "" := by
  obtain ⟨ct, txt, id, name, args, it, ot, app, ch, errs⟩ := s
  dsimp only at htype hid hname hparse
  subst htype
  simp [transform_stream_step, hid, hname, hparse, toolCallsOf]

/-- Witness for the C6 theorem: the state reached after
`BlockStart(tool_use, "t1", "get_time")` and the truncated fragment, hit by
`MessageDelta` — zero tool calls finalized, no chunk, error recorded. -/
theorem malformed_tool_json_discarded_witness :
    (transform_stream_step
        ⟨toolUseType, "", some "t1", some "get_time", "\x7b\"tz\":", 5, 0, [], [], []⟩
        (StreamEvent.messageDelta 3)).appended = [] ∧
    (transform_stream_step
        ⟨toolUseType, "", some "t1", some "get_time", "\x7b\"tz\":", 5, 0, [], [], []⟩
        (StreamEvent.messageDelta 3)).chunks = [] ∧
    (transform_stream_step
        ⟨toolUseType, "", some "t1", some "get_time", "\x7b\"tz\":", 5, 0, [], [], []⟩
        (StreamEvent.messageDelta 3)).decode_errors = ["\x7b\"tz\":"] ∧
    toolCallsOf (transform_stream_step
        ⟨toolUseType, "", some "t1", some "get_time", "\x7b\"tz\":", 5, 0, [], [], []⟩
        (StreamEvent.messageDelta 3)) = 0 ∧
    (transform_stream_step
        ⟨toolUseType, "", some "t1", some "get_time", "\x7b\"tz\":", 5, 0, [], [], []⟩
        (StreamEvent.messageDelta 3)).tool_call_id = none ∧
    (transform_stream_step
        ⟨toolUseType, "", some "t1", some "get_time", "\x7b\"tz\":", 5, 0, [], [], []⟩
        (StreamEvent.messageDelta 3)).tool_call_name = none ∧
    (transform_stream_step
        ⟨toolUseType, "", some "t1", some "get_time", "\x7b\"tz\":", 5, 0, [], [], []⟩
        (StreamEvent.messageDelta 3)).tool_call_args = "" :=
  malformed_tool_json_discarded
    ⟨toolUseType, "", some "t1", some "get_time", "\x7b\"tz\":", 5, 0, [], [], []⟩
    3 rfl rfl rfl rfl

/-- C7: tool JSON assembly across delta events — the canonical sequence
finalizes exactly one tool call with id `"t1"`, name `"get_time"` and args
parsed from the concatenated fragments, and records no decode error. -/
theorem tool_json_assembly :
    (transform_stream [StreamEvent.blockStartTool "t1" "get_time",
        StreamEvent.blockDeltaJson "\x7b\"tz\":",
        StreamEvent.blockDeltaJson "\"UTC\"\x7d",
        StreamEvent.messageDelta 3]).appended =
      [AssistantContentMsg.toolCallsContent
        [⟨"t1", "get_time", Json.obj [("tz", Json.str "UTC")]⟩]] ∧
    (transform_stream [StreamEvent.blockStartTool "t1" "get_time",
        StreamEvent.blockDeltaJson "\x7b\"tz\":",
        StreamEvent.blockDeltaJson "\"UTC\"\x7d",
        StreamEvent.messageDelta 3]).chunks =
      [Chunk.toolCall "t1" "get_time" (Json.obj [("tz", Json.str "UTC")])] ∧
    (transform_stream [StreamEvent.blockStartTool "t1" "get_time",
        StreamEvent.blockDeltaJson "\x7b\"tz\":",
        StreamEvent.blockDeltaJson "\"UTC\"\x7d",
        StreamEvent.messageDelta 3]).decode_errors = [] :=
  ⟨rfl, rfl, rfl⟩

/-- C9: over any event sequence the decoder finalizes at most one tool call
per `MessageDelta` event — the number of tool calls added to the chat log is
bounded by the number of `MessageDelta` events, so a message carrying several
`tool_use` blocks before its single `MessageDelta` yields at most one
finalized tool call. -/
theorem at_most_one_tool_call_per_message_delta (events : List StreamEvent) :
    toolCallsOf (transform_stream events) ≤
      (events.filter (fun e => isMessageDelta e)).length := by
  have h := toolCallsOf_foldl events initDecodeState
  have h0 : toolCallsOf initDecodeState = 0 := rfl
  calc toolCallsOf (transform_stream events)
      = toolCallsOf (events.foldl transform_stream_step initDecodeState) :=
        toolCallsOf_finish _
    _ ≤ toolCallsOf initDecodeState +
          (events.filter (fun e => isMessageDelta e)).length := h
    _ = (events.filter (fun e => isMessageDelta e)).length := by rw [h0, Nat.zero_add]

/-! ## Claim theorems: tool-call loop -/

/-- Any `finished` outcome of the loop body has its final iteration index in
range, and the cap warning is logged exactly when that index is the last one
of `range(max_iterations)` — whether or not the final round-trip still left
unresponded tool results. -/
theorem handle_chat_log_aux_finished (p : Nat → IterOutcome) :
    ∀ fuel i0 j w, i0 + fuel = max_iterations →
      handle_chat_log_aux p i0 fuel = RunResult.finished j w →
      j ≤ max_iterations - 1 ∧ (w = true ↔ j = max_iterations - 1) := by
  intro fuel
  induction fuel with
  | zero =>
    intro i0 j w hsum heq
    simp only [handle_chat_log_aux, RunResult.finished.injEq] at heq
    obtain ⟨hj, hw⟩ := heq
    subst hj
    subst hw
    constructor
    · omega
    · simp only [decide_eq_true_eq]
  | succ fuel ih =>
    intro i0 j w hsum heq
    simp only [handle_chat_log_aux] at heq
    cases hp : p i0 with
    | err e =>
      rw [hp] at heq
      exact absurd heq (by simp)
    | ok unresponded =>
      rw [hp] at heq
      dsimp only at heq
      by_cases hu : unresponded = true
      · rw [if_pos hu] at heq
        exact ih (i0 + 1) j w (by omega) heq
      · rw [if_neg hu] at heq
        injection heq with hj hw
        subst hj
        subst hw
        refine ⟨by omega, ?_⟩
        simp only [decide_eq_true_eq]

/-- C4 counterexample: a provider that keeps tool calls unresolved for the
first nine iterations and resolves everything on the tenth.  The run uses all
ten iterations and completes — the final round-trip reports no unresponded
tool results — yet the source's post-loop check `iteration ==
max_iterations - 1` still reports the iteration cap. -/
theorem cap_warning_despite_completion :
    handle_chat_log (fun i => IterOutcome.ok (decide (i < 9))) =
        RunResult.finished 9 true ∧
    (fun i => IterOutcome.ok (decide (i < 9))) 9 = IterOutcome.ok false :=
  ⟨rfl, rfl⟩

/-- C4 (amended): the tool-call loop always terminates after at most
`max_iterations` (10) round-trips — the final iteration index never exceeds
`max_iterations - 1` — and the run reports the iteration-cap warning exactly
when the final iteration index equals `max_iterations - 1`, regardless of
whether unresolved tool calls remain after the last round-trip. -/
theorem loop_terminates_cap_iff_last_index (p : Nat → IterOutcome) (i : Nat) (w : Bool)
    (h : handle_chat_log p = RunResult.finished i w) :
    i ≤ max_iterations - 1 ∧ (w = true ↔ i = max_iterations - 1) :=
  handle_chat_log_aux_finished p max_iterations 0 i w (Nat.zero_add _) h

/-- Witness for the amended C4 theorem: a provider whose first round-trip
leaves no unresponded tool results finishes at index 0 without the warning. -/
theorem loop_terminates_cap_iff_last_index_witness :
    (0 : Nat) ≤ max_iterations - 1 ∧ (false = true ↔ (0 : Nat) = max_iterations - 1) :=
  loop_terminates_cap_iff_last_index (fun _ => IterOutcome.ok false) 0 false rfl

/-- When iteration `i` raises an `AnthropicError` and every earlier iteration
continued the loop, the whole run aborts with the wrapped error. -/
theorem handle_chat_log_aux_err (p : Nat → IterOutcome) :
    ∀ fuel i0 i e, i0 ≤ i → i < i0 + fuel →
      p i = IterOutcome.err e →
      (∀ j, i0 ≤ j → j < i → p j = IterOutcome.ok true) →
      handle_chat_log_aux p i0 fuel = RunResult.raised (handleStreamError e) := by
  intro fuel
  induction fuel with
  | zero =>
    intro i0 i e hle hlt _ _
    omega
  | succ fuel ih =>
    intro i0 i e hle hlt hp hbef
    simp only [handle_chat_log_aux]
    rcases Nat.eq_or_lt_of_le hle with heq | hlt'
    · rw [← heq] at hp
      rw [hp]
    · have hp0 : p i0 = IterOutcome.ok true := hbef i0 le_rfl hlt'
      rw [hp0]
      simp only [if_pos]
      exact ih (i0 + 1) i e hlt' (by omega) hp
        (fun j hj1 hj2 => hbef j (Nat.le_of_succ_le hj1) hj2)

/-- C5 counterexample: the single `except anthropic.AnthropicError` clause
maps an authentication failure, a timeout/connection failure and a
provider-side rejection with the same `str(err)` to literally the same
propagated `HomeAssistantError` value — the propagated error does not
distinguish the three classes. -/
theorem error_classes_collapse :
    handleStreamError (AnthropicError.authentication "boom") =
        handleStreamError (AnthropicError.timeoutOrConnection "boom") ∧
    handleStreamError (AnthropicError.timeoutOrConnection "boom") =
        handleStreamError (AnthropicError.apiStatus "boom") :=
  ⟨rfl, rfl⟩

/-- C5 (amended): a stream-level failure at any iteration aborts the run
immediately — no further round-trips — and is propagated as a single
`HomeAssistantError` whose message embeds the provider error's text, without
a typed distinction between authentication, timeout/connection and
provider-rejection failures. -/
theorem stream_error_aborts_run (p : Nat → IterOutcome) (i : Nat) (e : AnthropicError)
    (hi : i < max_iterations) (hp : p i = IterOutcome.err e)
    (hbef : ∀ j, j < i → p j = IterOutcome.ok true) :
    handle_chat_log p =
      RunResult.raised (RunError.homeAssistantError
        ("Sorry, I had a problem talking to z.ai: " ++ errMessage e)) :=
  handle_chat_log_aux_err p max_iterations 0 i e (Nat.zero_le i)
    (by omega) hp (fun j _ hj2 => hbef j hj2)

/-- Witness for the amended C5 theorem: an authentication failure on the
first round-trip aborts the run with the wrapped message. -/
theorem stream_error_aborts_run_witness :
    handle_chat_log (fun _ => IterOutcome.err (AnthropicError.authentication "bad key")) =
      RunResult.raised (RunError.homeAssistantError
        ("Sorry, I had a problem talking to z.ai: " ++ errMessage
          (AnthropicError.authentication "bad key"))) :=
  stream_error_aborts_run (fun _ => IterOutcome.err (AnthropicError.authentication "bad key"))
    0 (AnthropicError.authentication "bad key") (by decide) rfl
    (fun j hj => absurd hj (Nat.not_lt_zero j))

/-! ## Claim theorems: message encoder -/

/-- C2 counterexample: a `ToolResultTurn` with two results is encoded by
`_convert_content` as two wire messages, not one — the source's tool-result
branch appends one message per result inside its `for` loop. -/
theorem tool_result_turn_two_messages :
    (convert_content [ChatContent.toolResult
        [⟨"c1", some "ok", false⟩, ⟨"c2", none, true⟩]]).length = 2 ∧
    (convert_content [ChatContent.toolResult
        [⟨"c1", some "ok", false⟩, ⟨"c2", none, true⟩]]).length ≠ 1 :=
  ⟨rfl, by decide⟩

/-- Modelled from the amended claim: each `ToolResult` of a `ToolResultTurn`
becomes its own wire message with role `"user"` whose content is the single
tool-result part carrying that result's `callId`, content and error flag, in
order. -/
def tool_result_messages_amended (results : List ToolResult) : List MessageParam :=
  results.map (fun tr =>
    { role := "user",
      content := [ContentPart.tool_result tr.call_id (tr.result.getD "") tr.error] })

/-- C2 (amended): the encoder turns a `ToolResultTurn` with `n` results into
`n` wire messages, one per result, each with role `"user"` and exactly the
one tool-result part for that result, in order. -/
theorem tool_result_turn_one_message_per_result (results : List ToolResult) :
    convert_content [ChatContent.toolResult results] =
        tool_result_messages_amended results ∧
    (convert_content [ChatContent.toolResult results]).length = results.length := by
  constructor
  · simp [convert_content, convert_one, tool_result_messages_amended]
  · simp [convert_content, convert_one]

/-- The attachment encoding exactly as the claim states it: an attachment
whose mime type starts with `"image/"` becomes an image content part, one
with mime type `"application/pdf"` becomes a document content part, and any
other attachment is omitted. -/
def attachment_part_claim (a : Attachment) : Option ContentPart :=
  if List.isPrefixOf "image/".data a.content_type.data then
    some (ContentPart.image a.content_type a.data)
  else if a.content_type = "application/pdf" then
    some (ContentPart.document a.data)
  else none

/-- The encoder's attachment branch agrees with the claim's description. -/
theorem attachment_part_eq_claim : attachment_part = attachment_part_claim :=
  rfl

/-- C8: every `UserTurn` becomes exactly one wire message with role `"user"`
whose content is the optional text part followed by the encodings of exactly
the supported attachments (image parts for `image/*`, document parts for
`application/pdf`, others omitted); in particular a user turn with a PNG and
a zip attachment encodes to one content part beyond the text, the zip being
dropped. -/
theorem user_turn_attachment_filtering (text : String) (atts : List Attachment) :
    convert_content [ChatContent.user text atts] =
      [{ role := "user",
         content := (if text = "" then [] else [ContentPart.text text]) ++
           atts.filterMap attachment_part_claim }] ∧
    convert_content [ChatContent.user "hi"
        [⟨"image/png", "d1"⟩, ⟨"application/zip", "d2"⟩]] =
      [{ role := "user",
         content := [ContentPart.text "hi", ContentPart.image "image/png" "d1"] }] := by
  constructor
  · simp [convert_content, convert_one, attachment_part_eq_claim]
  · rfl

/-! ## Claim theorems: option resolution -/

/-- C10: when the `recommended` option is set, the handler ignores the
configured `chat_model`, `max_tokens` and `temperature` and uses the built-in
defaults `"glm-4-flash"`, `3000` and `1.0`, whatever the configured values
are. -/
theorem recommended_options_use_defaults (o : Options) (h : o.recommended = some true) :
    effective_model o = "glm-4-flash" ∧
    effective_max_tokens o = 3000 ∧
    effective_temperature o = 1 := by
  refine ⟨?_, ?_, ?_⟩ <;>
    simp [effective_model, effective_max_tokens, effective_temperature,
      recommendedTruthy, h, DEFAULT_CHAT_MODEL, DEFAULT_MAX_TOKENS, DEFAULT_TEMPERATURE]

/-- Witness for the C10 theorem: options with `recommended` set and
non-default configured values still resolve to the defaults. -/
theorem recommended_options_use_defaults_witness :
    effective_model ⟨some true, "glm-4-plus", 5, 2⟩ = "glm-4-flash" ∧
    effective_max_tokens ⟨some true, "glm-4-plus", 5, 2⟩ = 3000 ∧
    effective_temperature ⟨some true, "glm-4-plus", 5, 2⟩ = 1 :=
  recommended_options_use_defaults ⟨some true, "glm-4-plus", 5, 2⟩ rfl

end Zai
